import Mathlib

/-
Verification of the watermark utility img_watermark.py.

The file shallowly embeds the parts of the program the claims are about:
the hex-color parser, the font-size parser, the EXIF date reader and its
date-string parser, the per-file processing outcome, the corner placement
computation, and the batch driver of main. Python strings are modelled as
List Char (or String); fallible code returns Option; the float offsets
0.08 and 0.05 are modelled as exact rationals with Python round-half-to-
even semantics, which agrees with the binary64 computation of the source
for every image dimension below 10^12 (the products 8W/100 and 5H/100 sit
at distance at least 1/50 from every rounding boundary except exact ties,
and exact ties round to even in both arithmetics).
-/

/-! Character classes, transcribing the behaviour of the Python str
methods and numeric constructors used by the source. -/

/-- Whitespace as stripped by str.strip and accepted by int()/float(). -/
def pyIsSpace (c : Char) : Bool :=
  decide (c.toNat = 32 ∨ c.toNat = 9 ∨ c.toNat = 10 ∨ c.toNat = 13 ∨
    c.toNat = 11 ∨ c.toNat = 12)

/-- Decimal digit 0-9. -/
def isDigitChar (c : Char) : Bool :=
  decide (48 ≤ c.toNat ∧ c.toNat ≤ 57)

/-- Hexadecimal digit 0-9, a-f, A-F, as accepted by int(_, 16). -/
def isHexDigitChar (c : Char) : Bool :=
  decide ((48 ≤ c.toNat ∧ c.toNat ≤ 57) ∨ (97 ≤ c.toNat ∧ c.toNat ≤ 102) ∨
    (65 ≤ c.toNat ∧ c.toNat ≤ 70))

/-- ASCII lowering, the fragment of str.lower relevant to the inputs the
source compares against (corner names, auto, px, digits). -/
def pyLowerChar (c : Char) : Char :=
  if 65 ≤ c.toNat ∧ c.toNat ≤ 90 then Char.ofNat (c.toNat + 32) else c

/-- Value of a decimal digit. -/
def dval (c : Char) : Nat := c.toNat - 48

/-- Value of a hexadecimal digit. -/
def hexValNat (c : Char) : Nat :=
  if c.toNat ≤ 57 then c.toNat - 48
  else if 97 ≤ c.toNat then c.toNat - 87
  else c.toNat - 55

/-- str.strip: remove leading and trailing whitespace. -/
def stripWSList (l : List Char) : List Char :=
  ((l.dropWhile pyIsSpace).reverse.dropWhile pyIsSpace).reverse

/-- Leading sign of a numeric literal, as consumed by int() and float(). -/
def signSplitL : List Char → Int × List Char
  | [] => (1, [])
  | c :: rest =>
      if c = '+' then (1, rest)
      else if c = '-' then (-1, rest)
      else (1, c :: rest)

def digitsToNat (l : List Char) : Nat := l.foldl (fun a c => 10 * a + dval c) 0

def allDigits (l : List Char) : Bool := !l.isEmpty && l.all isDigitChar

def hexListToNat (l : List Char) : Nat :=
  l.foldl (fun a c => 16 * a + hexValNat c) 0

/-- Python int(s) on a character list: optional surrounding whitespace,
optional sign, nonempty run of decimal digits. (Digit-group underscores
are not modelled; no input the program builds can contain one between two
digits of the relevant slices.) -/
def pyIntChars? (l0 : List Char) : Option Int :=
  let l := stripWSList l0
  let p := signSplitL l
  if allDigits p.2 then some (p.1 * (digitsToNat p.2 : Int)) else none

/-- Python int(s, 16) on a character list: optional surrounding
whitespace, optional sign, nonempty run of hex digits. (The 0x-prefix
form cannot occur in the 2-character slices the color parser feeds in:
the only such slice shaped like a prefix is 0x itself, which fails in
both Python and this model.) -/
def pyIntBase16Chars? (l0 : List Char) : Option Int :=
  let l := stripWSList l0
  let p := signSplitL l
  if !p.2.isEmpty && p.2.all isHexDigitChar then
    some (p.1 * (hexListToNat p.2 : Int))
  else none

/-- Unsigned mantissa of a float literal: digits, optionally a dot with
digits on at least one side. -/
def parseUFrac (l : List Char) : Option ℚ :=
  let ip := l.takeWhile isDigitChar
  let rest := l.dropWhile isDigitChar
  match rest with
  | [] => if ip.isEmpty then none else some ((digitsToNat ip : ℚ))
  | c :: fp =>
      if c = '.' ∧ fp.all isDigitChar ∧ ¬(ip.isEmpty ∧ fp.isEmpty) then
        some ((digitsToNat ip : ℚ) + (digitsToNat fp : ℚ) / ((10 : ℚ) ^ fp.length))
      else none

/-- Python float(s) on a character list: optional surrounding whitespace,
optional sign, decimal mantissa, optional exponent. The special texts
inf, infinity and nan are not modelled: in the source every path feeding
float() either clamps the result into a branch where those inputs end in
the same auto fallback (via the exception on int()) or never receives
them from the claims under study. -/
def pyFloatChars? (l0 : List Char) : Option ℚ :=
  let l := stripWSList l0
  let p := signSplitL l
  let m := p.2
  let mant := m.takeWhile (fun c => !(c = 'e' || c = 'E'))
  let ex := m.dropWhile (fun c => !(c = 'e' || c = 'E'))
  match ex with
  | [] => (parseUFrac mant).map (fun q => (p.1 : ℚ) * q)
  | _ :: ecs =>
      let pe := signSplitL ecs
      if allDigits pe.2 then
        (parseUFrac mant).map
          (fun q => (p.1 : ℚ) * q * ((10 : ℚ) ^ (pe.1 * (digitsToNat pe.2 : Int))))
      else none

/-! Constants of the source (module-level configuration). -/

def DEFAULT_COLOR_HEX : String := "#FFFFFF"

/-- DEFAULT_TARGET_RATIO = 0.10 of the source, as an exact rational. -/
def defaultTargetRatio : ℚ := 10 / 100

def DEFAULT_PADDING : Int := 12

def FALLBACK_TO_FILETIME : Bool := false

/-! Color parsing: parse_hex_color_to_rgba and parse_color_input. -/

/-- Remove one leading hash, modelling s.startswith and the slice. -/
def stripHash : List Char → List Char
  | [] => []
  | c :: rest => if c = '#' then rest else c :: rest

/-- Double every character, modelling the join of c*2 over s. -/
def doubleChars (l : List Char) : List Char :=
  l.foldr (fun c acc => c :: c :: acc) []

/-- parse_hex_color_to_rgba on the character list of the input string.
none models the raised ValueError. Each two-character group goes through
the Python int(_, 16) conversion. -/
def parse_hex_color_chars (l0 : List Char) : Option (Int × Int × Int × Int) :=
  let l1 := if l0 = [] then DEFAULT_COLOR_HEX.data else l0
  let l2 := stripWSList l1
  let l3 := stripHash l2
  let l4 := if l3.length = 3 then doubleChars l3 else l3
  if l4.length = 6 then
    match pyIntBase16Chars? (l4.take 2), pyIntBase16Chars? ((l4.drop 2).take 2),
        pyIntBase16Chars? ((l4.drop 4).take 2) with
    | some r, some g, some b => some (r, g, b, 255)
    | _, _, _ => none
  else none

def parse_hex_color_to_rgba (s : String) : Option (Int × Int × Int × Int) :=
  parse_hex_color_chars s.data

/-- parse_color_input: strip, empty means default, a parse failure is
caught and replaced by the default color (with a printed warning). -/
def parse_color_input (s : String) : Option (Int × Int × Int × Int) :=
  let t := stripWSList s.data
  if t = [] then parse_hex_color_chars DEFAULT_COLOR_HEX.data
  else
    match parse_hex_color_chars t with
    | some c => some c
    | none => parse_hex_color_chars DEFAULT_COLOR_HEX.data

/-! Font-size parsing: parse_font_input. -/

inductive SizeMode where
  | auto
  | ratio
  | pixels
deriving DecidableEq

/-- The (mode, ratio, pixels) triple returned by parse_font_input. -/
structure FontSpec where
  mode : SizeMode
  ratio : Option ℚ
  pixels : Option Int
deriving DecidableEq

/-- parse_font_input on the stripped, lowered character list. -/
def parse_font_chars (raw : List Char) : FontSpec :=
  if raw = [] ∨ raw = ['a', 'u', 't', 'o'] then
    ⟨SizeMode.auto, some defaultTargetRatio, none⟩
  else if raw.getLast? = some '%' then
    match pyFloatChars? raw.dropLast with
    | some num => ⟨SizeMode.ratio, some (max (1 / 1000) (min 1 (num / 100))), none⟩
    | none => ⟨SizeMode.auto, some defaultTargetRatio, none⟩
  else if raw.dropLast.getLast? = some 'p' ∧ raw.getLast? = some 'x' then
    match pyIntChars? raw.dropLast.dropLast with
    | some px => ⟨SizeMode.pixels, none, some (max 1 px)⟩
    | none => ⟨SizeMode.auto, some defaultTargetRatio, none⟩
  else
    match pyFloatChars? raw with
    | some num =>
        if num ≤ 100 then
          ⟨SizeMode.ratio, some (max (1 / 1000) (min 1 (num / 100))), none⟩
        else ⟨SizeMode.pixels, none, some (max 1 num.floor)⟩
    | none => ⟨SizeMode.auto, some defaultTargetRatio, none⟩

/-- parse_font_input: raw = (s or "").strip().lower(), then the branch
cascade above. int(num) of the source truncates toward zero; in the only
branch where it runs the value exceeds 100, so the rational floor agrees. -/
def parse_font_input (s : String) : FontSpec :=
  parse_font_chars ((stripWSList s.data).map pyLowerChar)

/-! Date parsing: _parse_exif_datetime and the strptime fragments the
source uses, with the CPython pattern semantics for the directives
%Y (exactly four digits), %m %d %H %M %S (two digits in range, else one
digit in range), full-string match, and the datetime constructor day
validation. Byte inputs are not modelled (tag values arrive as text). -/

structure PyDateTime where
  year : Nat
  month : Nat
  day : Nat
  hour : Nat
  minute : Nat
  second : Nat
deriving DecidableEq

def takeYear : List Char → Option (Nat × List Char)
  | a :: b :: c :: d :: rest =>
      if isDigitChar a && isDigitChar b && isDigitChar c && isDigitChar d then
        some (((dval a * 10 + dval b) * 10 + dval c) * 10 + dval d, rest)
      else none
  | _ => none

/-- A two-digit value in [lo, hi], else a one-digit value in [lo, hi],
mirroring the alternation in the CPython strptime patterns. -/
def takeNum2 (lo hi : Nat) : List Char → Option (Nat × List Char)
  | [] => none
  | [a] =>
      if isDigitChar a && decide (lo ≤ dval a ∧ dval a ≤ hi) then
        some (dval a, [])
      else none
  | a :: b :: rest =>
      if isDigitChar a && isDigitChar b &&
          decide (lo ≤ dval a * 10 + dval b ∧ dval a * 10 + dval b ≤ hi) then
        some (dval a * 10 + dval b, rest)
      else if isDigitChar a && decide (lo ≤ dval a ∧ dval a ≤ hi) then
        some (dval a, b :: rest)
      else none

def takeChar (c : Char) : List Char → Option (List Char)
  | [] => none
  | x :: rest => if x = c then some rest else none

def isLeapYear (y : Nat) : Bool :=
  (y % 4 == 0 && y % 100 != 0) || y % 400 == 0

def daysInMonth (y m : Nat) : Nat :=
  if m = 2 then (if isLeapYear y then 29 else 28)
  else if m = 4 ∨ m = 6 ∨ m = 9 ∨ m = 11 then 30
  else 31

/-- The datetime constructor check that can still fail after the pattern
match: year at least MINYEAR and day within the month. -/
def mkDateTime (y mo d h mi s : Nat) : Option PyDateTime :=
  if 1 ≤ y ∧ d ≤ daysInMonth y mo then some ⟨y, mo, d, h, mi, s⟩ else none

def strptimeDate (sep : Char) (l : List Char) :
    Option (Nat × Nat × Nat × List Char) :=
  (takeYear l).bind fun (y, r1) =>
  (takeChar sep r1).bind fun r2 =>
  (takeNum2 1 12 r2).bind fun (mo, r3) =>
  (takeChar sep r3).bind fun r4 =>
  (takeNum2 1 31 r4).map fun (d, r5) => (y, mo, d, r5)

def strptimeTime (l : List Char) : Option (Nat × Nat × Nat × List Char) :=
  (takeNum2 0 23 l).bind fun (h, r1) =>
  (takeChar ':' r1).bind fun r2 =>
  (takeNum2 0 59 r2).bind fun (mi, r3) =>
  (takeChar ':' r3).bind fun r4 =>
  (takeNum2 0 59 r4).map fun (s, r5) => (h, mi, s, r5)

/-- strptime against Y sep m sep d, optionally followed by a space and
H:M:S; the whole input must be consumed. -/
def strptimeFull (sep : Char) (withTime : Bool) (l : List Char) :
    Option PyDateTime :=
  (strptimeDate sep l).bind fun (y, mo, d, r) =>
    if withTime then
      (takeChar ' ' r).bind fun r1 =>
      (strptimeTime r1).bind fun (h, mi, s, r2) =>
        match r2 with
        | [] => mkDateTime y mo d h mi s
        | _ => none
    else
      match r with
      | [] => mkDateTime y mo d 0 0 0
      | _ => none

/-- First whitespace-delimited token, modelling s.split() with only the
head of the list consumed (parts and parts[0] of the source). -/
def firstTokenWS (l : List Char) : Option (List Char) :=
  match l.dropWhile pyIsSpace with
  | [] => none
  | c :: rest => some (c :: rest.takeWhile (fun x => !pyIsSpace x))

/-- _parse_exif_datetime on a character list: empty is falsy and yields
none; otherwise strip, try the three formats in order, then fall back to
the first token with colons replaced by dashes parsed as Y-m-d. Every
strptime failure is an exception the source catches and turns into the
next attempt or none. -/
def parse_exif_datetime_chars (l0 : List Char) : Option PyDateTime :=
  if l0 = [] then none
  else
    let l := stripWSList l0
    match strptimeFull ':' true l with
    | some d => some d
    | none =>
      match strptimeFull '-' true l with
      | some d => some d
      | none =>
        match strptimeFull ':' false l with
        | some d => some d
        | none =>
          match firstTokenWS l with
          | none => none
          | some tok =>
              strptimeFull '-' false (tok.map fun c => if c = ':' then '-' else c)

def parse_exif_datetime (s : String) : Option PyDateTime :=
  parse_exif_datetime_chars s.data

/-! read_exif_date over the piexif tag dictionary. The dictionary is
modelled by the truthiness of the Exif IFD and the three date tags the
source consults; an Except input models the piexif.load call, whose
failure the enclosing try turns into none. -/

/-- Python truthiness of an optional string tag value. -/
def truthyS : Option String → Bool
  | none => false
  | some s => !(s == "")

/-- Python or on two optional tag values. -/
def pyOrS (a b : Option String) : Option String :=
  if truthyS a then a else b

structure ExifDict where
  exifNonempty : Bool
  dateTimeOriginal : Option String
  dateTimeDigitized : Option String
  zerothDateTime : Option String

def zerothLookup (d : ExifDict) : Option PyDateTime :=
  if truthyS d.zerothDateTime then
    parse_exif_datetime (d.zerothDateTime.getD "")
  else none

/-- read_exif_date body on a loaded dictionary: if the Exif IFD is
truthy, take DateTimeOriginal or DateTimeDigitized; when that is truthy
return its parse unconditionally; otherwise consult the 0th DateTime. -/
def read_exif_date (d : ExifDict) : Option PyDateTime :=
  if d.exifNonempty then
    if truthyS (pyOrS d.dateTimeOriginal d.dateTimeDigitized) then
      parse_exif_datetime ((pyOrS d.dateTimeOriginal d.dateTimeDigitized).getD "")
    else zerothLookup d
  else zerothLookup d

/-- read_exif_date including the surrounding try: a raising load (or any
raising step) gives none, never a propagated error. -/
def read_exif_full : Except String ExifDict → Option PyDateTime
  | Except.error _ => none
  | Except.ok d => read_exif_date d

/-! Per-file processing (process_image date handling and outcome). -/

/-- Zero-pad to two digits, the %m and %d formatting. -/
def pad2 (n : Nat) : String :=
  (if n < 10 then ("0") else ("")) ++ toString n

/-- strftime with Y-m-d: month and day zero-padded to two digits. The
claims only exercise four-digit years, where %Y needs no padding. -/
def strftime_Ymd (d : PyDateTime) : String :=
  toString d.year ++ ("-") ++ pad2 d.month ++ ("-") ++ pad2 d.day

/-- The date actually used by process_image: the EXIF date, or the file
mtime when absent and the fallback flag is set (a failing stat is a none
mtime). -/
def resolve_date (dt : Option PyDateTime) (fb : Bool)
    (mtime : Option PyDateTime) : Option PyDateTime :=
  if dt.isNone && fb then mtime else dt

def watermark_text (dt : Option PyDateTime) (fb : Bool)
    (mtime : Option PyDateTime) : Option String :=
  (resolve_date dt fb mtime).map strftime_Ymd

/-! Corner placement. The two drawing paths of process_image (TrueType
and bitmap fallback) carry textually identical placement blocks; both are
transcribed. Coordinates are Int: nothing in the source clamps the four
fixed-padding corners, so they can go negative. -/

/-- Python round on the exact rational num/den: round half to even. -/
def pyRoundNat (num den : Nat) : Nat :=
  let q := num / den
  let r := num % den
  if 2 * r < den then q
  else if den < 2 * r then q + 1
  else if q % 2 = 0 then q else q + 1

/-- right_offset = int(round(img_w * RIGHT_OFFSET_RATIO)), ratio 0.08. -/
def rightOffsetOf (w : Nat) : Nat := pyRoundNat (8 * w) 100

/-- bottom_offset = int(round(img_h * BOTTOM_OFFSET_RATIO)), ratio 0.05. -/
def bottomOffsetOf (h : Nat) : Nat := pyRoundNat (5 * h) 100

inductive Pos where
  | topleft
  | topright
  | center
  | bottomleft
  | bottomright
deriving DecidableEq

/-- Placement block of the TrueType path (Python floor division for the
center; the bottom-right proportional offsets with the fixed-padding
fallback applied per coordinate when the proportional value is negative). -/
def place_truetype (pos : Pos) (w h tw th : Nat) : Int × Int :=
  match pos with
  | Pos.topleft => (DEFAULT_PADDING, DEFAULT_PADDING)
  | Pos.topright => ((w : Int) - (tw : Int) - DEFAULT_PADDING, DEFAULT_PADDING)
  | Pos.center =>
      (((w : Int) - (tw : Int)).fdiv 2, ((h : Int) - (th : Int)).fdiv 2)
  | Pos.bottomleft => (DEFAULT_PADDING, (h : Int) - (th : Int) - DEFAULT_PADDING)
  | Pos.bottomright =>
      let x0 : Int := (w : Int) - (tw : Int) - (rightOffsetOf w : Int)
      let y0 : Int := (h : Int) - (th : Int) - (bottomOffsetOf h : Int)
      let x : Int :=
        if x0 < 0 then max 0 ((w : Int) - (tw : Int) - DEFAULT_PADDING) else x0
      let y : Int :=
        if y0 < 0 then max 0 ((h : Int) - (th : Int) - DEFAULT_PADDING) else y0
      (x, y)

/-- Placement block of the bitmap-fallback path, identical text in the
source. -/
def place_bitmap (pos : Pos) (w h tw th : Nat) : Int × Int :=
  match pos with
  | Pos.topleft => (DEFAULT_PADDING, DEFAULT_PADDING)
  | Pos.topright => ((w : Int) - (tw : Int) - DEFAULT_PADDING, DEFAULT_PADDING)
  | Pos.center =>
      (((w : Int) - (tw : Int)).fdiv 2, ((h : Int) - (th : Int)).fdiv 2)
  | Pos.bottomleft => (DEFAULT_PADDING, (h : Int) - (th : Int) - DEFAULT_PADDING)
  | Pos.bottomright =>
      let x0 : Int := (w : Int) - (tw : Int) - (rightOffsetOf w : Int)
      let y0 : Int := (h : Int) - (th : Int) - (bottomOffsetOf h : Int)
      let x : Int :=
        if x0 < 0 then max 0 ((w : Int) - (tw : Int) - DEFAULT_PADDING) else x0
      let y : Int :=
        if y0 < 0 then max 0 ((h : Int) - (th : Int) - DEFAULT_PADDING) else y0
      (x, y)

/-! Per-file outcome and the batch loop of main. -/

inductive Outcome where
  | saved (name : String) (text : String)
  | skippedNoTime (name : String)
  | openFailed (name : String)
deriving DecidableEq

/-- The per-file inputs that decide the outcome: whether the image opens,
what the EXIF load returns, and the stat mtime (none when stat raises). -/
structure FileModel where
  name : String
  opensOK : Bool
  exifLoad : Except String ExifDict
  mtime : Option PyDateTime

/-- Outcome skeleton of process_image: open failure reports an error and
returns; a missing date (after the optional mtime fallback) skips the
file with the no-time-information message; otherwise the file is saved
with the formatted date text. -/
def process_image_model (fb : Bool) (f : FileModel) : Outcome :=
  if f.opensOK then
    match resolve_date (read_exif_full f.exifLoad) fb f.mtime with
    | none => Outcome.skippedNoTime f.name
    | some d => Outcome.saved f.name (strftime_Ymd d)
  else Outcome.openFailed f.name

/-- The for loop over targets: one outcome per file, in order. -/
def run_batch (fb : Bool) : List FileModel → List Outcome
  | [] => []
  | f :: rest => process_image_model fb f :: run_batch fb rest

/-! The input validation of main. -/

/-- is_image_file: the lowered name ends with one of the supported
extensions. -/
def is_image_file (name : String) : Bool :=
  let ext := name.data.map pyLowerChar
  [['.', 'j', 'p', 'g'], ['.', 'j', 'p', 'e', 'g'], ['.', 'p', 'n', 'g'],
   ['.', 'w', 'e', 'b', 'p'], ['.', 'b', 'm', 'p'], ['.', 't', 'i', 'f'],
   ['.', 't', 'i', 'f', 'f']].any (fun suf => suf.isSuffixOf ext)

/-- An immediate child of the input directory. -/
structure DirChild where
  name : String
  isFile : Bool
deriving DecidableEq

/-- What the filesystem says about the input path. -/
inductive InputPath where
  | missing
  | dir (children : List DirChild)
  | file (name : String)

/-- How main leaves its validation phase: an explicit exit with a status,
or entry into the processing loop with the enumerated targets. -/
inductive MainResult where
  | exit (code : Nat)
  | proceed (targets : List String)
deriving DecidableEq

/-- The validation and enumeration prefix of main: EOF on input exits 1;
an empty stripped path exits 1; a missing path exits 1; a single file
with an unsupported extension exits 1; a directory is enumerated
non-recursively over its child files with matching extensions, and zero
targets exits 0. -/
def main_validate (line : Option String) (kind : InputPath) : MainResult :=
  match line with
  | none => MainResult.exit 1
  | some raw =>
      if stripWSList raw.data = [] then MainResult.exit 1
      else
        match kind with
        | InputPath.missing => MainResult.exit 1
        | InputPath.dir children =>
            let targets :=
              (children.filter (fun c => c.isFile && is_image_file c.name)).map
                DirChild.name
            if targets = [] then MainResult.exit 0 else MainResult.proceed targets
        | InputPath.file name =>
            if is_image_file name then MainResult.proceed [name]
            else MainResult.exit 1

/-- main up to and including the processing loop: a validation exit
happens before any file is processed (the error carries the exit status
and no outcome list exists); otherwise every target is processed. -/
def main_run (line : Option String) (kind : InputPath) (fb : Bool)
    (env : String → FileModel) : Except Nat (List Outcome) :=
  match main_validate line kind with
  | MainResult.exit c => Except.error c
  | MainResult.proceed ts => Except.ok (run_batch fb (ts.map env))

/-! Theorems. -/

/-- C2: for every image size (W,H), measured watermark size (tw,th) and
the fixed padding constant, the placement origin of the four
non-proportional corners is top-left (pad, pad), top-right
(W - tw - pad, pad), center ((W - tw) / 2, (H - th) / 2) with Python
floor division, and bottom-left (pad, H - th - pad), in both the
scalable-font and bitmap-fallback rendering paths. -/
theorem c2_corner_placement (w h tw th : Nat) :
    place_truetype Pos.topleft w h tw th = (DEFAULT_PADDING, DEFAULT_PADDING) ∧
    place_truetype Pos.topright w h tw th =
      ((w : Int) - (tw : Int) - DEFAULT_PADDING, DEFAULT_PADDING) ∧
    place_truetype Pos.center w h tw th =
      (((w : Int) - (tw : Int)).fdiv 2, ((h : Int) - (th : Int)).fdiv 2) ∧
    place_truetype Pos.bottomleft w h tw th =
      (DEFAULT_PADDING, (h : Int) - (th : Int) - DEFAULT_PADDING) ∧
    place_bitmap Pos.topleft w h tw th = (DEFAULT_PADDING, DEFAULT_PADDING) ∧
    place_bitmap Pos.topright w h tw th =
      ((w : Int) - (tw : Int) - DEFAULT_PADDING, DEFAULT_PADDING) ∧
    place_bitmap Pos.center w h tw th =
      (((w : Int) - (tw : Int)).fdiv 2, ((h : Int) - (th : Int)).fdiv 2) ∧
    place_bitmap Pos.bottomleft w h tw th =
      (DEFAULT_PADDING, (h : Int) - (th : Int) - DEFAULT_PADDING) :=
  ⟨rfl, rfl, rfl, rfl, rfl, rfl, rfl, rfl⟩

/-- C1 counterexample: the claim predicts the fixed-padding fallback for
every (W,H,tw,th) with W*0.92 - tw < 0, but at W = 201, tw = 185 (H =
1000, th = 20) that condition holds (92*201 < 100*185) while the code
keeps the proportional x: round(201*0.08) = 16 makes x = 201-185-16 = 0,
which is not negative, so no fallback runs, yet the claimed fallback
value max 0 (201 - 185 - 12) is 4, not 0. -/
theorem c1_counterexample :
    92 * 201 < 100 * 185 ∧
    place_truetype Pos.bottomright 201 1000 185 20 = (0, 930) ∧
    max 0 ((201 : Int) - 185 - DEFAULT_PADDING) = 4 ∧ (0 : Int) ≠ 4 := by
  refine ⟨by norm_num, ?_, by decide, by decide⟩
  decide

/-- C1 (amended): for the bottom-right corner the proportional origin is
x = W - tw - round(W*0.08), y = H - th - round(H*0.05); the fixed-padding
fallback (W - tw - pad, resp. H - th - pad, clamped to a minimum of 0) is
used for a coordinate exactly when that proportional coordinate is
negative (not when W*0.92 - tw or H*0.95 - th is negative, which can
differ by the rounding of the offset); the resulting origin coordinates
are never negative. -/
theorem c1_bottomright_fallback (w h tw th : Nat) :
    place_truetype Pos.bottomright w h tw th =
      ((if (w : Int) - (tw : Int) - (rightOffsetOf w : Int) < 0 then
          max 0 ((w : Int) - (tw : Int) - DEFAULT_PADDING)
        else (w : Int) - (tw : Int) - (rightOffsetOf w : Int)),
       (if (h : Int) - (th : Int) - (bottomOffsetOf h : Int) < 0 then
          max 0 ((h : Int) - (th : Int) - DEFAULT_PADDING)
        else (h : Int) - (th : Int) - (bottomOffsetOf h : Int))) ∧
    0 ≤ (place_truetype Pos.bottomright w h tw th).1 ∧
    0 ≤ (place_truetype Pos.bottomright w h tw th).2 := by
  refine ⟨rfl, ?_, ?_⟩
  · show 0 ≤ (if (w : Int) - (tw : Int) - (rightOffsetOf w : Int) < 0 then
        max 0 ((w : Int) - (tw : Int) - DEFAULT_PADDING)
      else (w : Int) - (tw : Int) - (rightOffsetOf w : Int))
    split
    · exact le_max_left 0 _
    · omega
  · show 0 ≤ (if (h : Int) - (th : Int) - (bottomOffsetOf h : Int) < 0 then
        max 0 ((h : Int) - (th : Int) - DEFAULT_PADDING)
      else (h : Int) - (th : Int) - (bottomOffsetOf h : Int))
    split
    · exact le_max_left 0 _
    · omega

/-- C10: the top-right, center and bottom-left corners apply no
non-negativity clamp: at concrete sizes where the watermark exceeds the
image, the computed origin is negative and is the value handed to the
drawing call, in both rendering paths. -/
theorem c10_no_clamp_other_corners :
    place_truetype Pos.topright 100 100 200 10 = (-112, 12) ∧
    ((-112 : Int) < 0) ∧
    place_truetype Pos.center 100 100 300 10 = (-100, 45) ∧
    ((-100 : Int) < 0) ∧
    place_truetype Pos.bottomleft 100 10 20 50 = (12, -52) ∧
    ((-52 : Int) < 0) ∧
    place_bitmap Pos.topright 100 100 200 10 = (-112, 12) ∧
    place_bitmap Pos.center 100 100 300 10 = (-100, 45) ∧
    place_bitmap Pos.bottomleft 100 10 20 50 = (12, -52) := by
  refine ⟨by decide, by decide, by decide, by decide, by decide, by decide,
    by decide, by decide, by decide⟩

/-- C5: an image whose metadata DateTimeOriginal tag holds the string
2023:05:10 14:22:01 gets watermark text exactly 2023-05-10: the EXIF
colon-separated datetime is parsed and formatted back as Y-m-d. -/
theorem c5_exif_roundtrip :
    watermark_text
      (read_exif_full
        (Except.ok ⟨true, some ("2023:05:10 14:22:01"), none, none⟩))
      false none = some ("2023-05-10") ∧
    read_exif_full
        (Except.ok ⟨true, some ("2023:05:10 14:22:01"), none, none⟩) =
      some ⟨2023, 5, 10, 14, 22, 1⟩ := by
  refine ⟨?_, ?_⟩ <;> decide

/-- C6: read_exif_date never lets an error reach its caller: a failing
load yields none, and a dictionary whose consulted tag values all fail to
parse (missing tags parse as the empty string, which fails) also yields
none rather than an exception; the return type is the option, not an
error. -/
theorem c6_read_exif_total (e : String) (d : ExifDict) :
    read_exif_full (Except.error e) = none ∧
    (parse_exif_datetime
        ((pyOrS d.dateTimeOriginal d.dateTimeDigitized).getD "") = none →
      parse_exif_datetime (d.zerothDateTime.getD "") = none →
      read_exif_full (Except.ok d) = none) := by
  refine ⟨rfl, fun h1 h2 => ?_⟩
  show read_exif_date d = none
  have hz : zerothLookup d = none := by
    unfold zerothLookup
    split
    · exact h2
    · rfl
  unfold read_exif_date
  split
  · split
    · exact h1
    · exact hz
  · exact hz

/-- C6 witness: a failing load and a dictionary full of malformed dates
both give the absent value. -/
theorem c6_witness :
    read_exif_full (Except.error ("boom")) = none ∧
    read_exif_full
      (Except.ok ⟨true, some ("gibberish"), none, some ("junk")⟩) = none := by
  have h := c6_read_exif_total ("boom")
    ⟨true, some ("gibberish"), none, some ("junk")⟩
  exact ⟨h.1, h.2 (by decide) (by decide)⟩

/-- C9: when the Exif IFD is truthy and DateTimeOriginal-or-Digitized is
a truthy string that fails to parse, read_exif_date returns none at once,
whatever the generic 0th-IFD DateTime holds: an unparseable primary tag
masks a parseable generic one. -/
theorem c9_unparseable_primary_masks_generic (d : ExifDict) (s : String) :
    d.exifNonempty = true →
    pyOrS d.dateTimeOriginal d.dateTimeDigitized = some s →
    (s == "") = false →
    parse_exif_datetime s = none →
    read_exif_full (Except.ok d) = none := by
  intro hne hdto hs hparse
  show read_exif_date d = none
  unfold read_exif_date
  rw [if_pos hne, hdto]
  have ht : truthyS (some s) = true := by simp [truthyS, hs]
  rw [if_pos ht]
  exact hparse

/-- C9 witness: a corrupted primary tag hides a 0th-IFD DateTime that
would itself parse. -/
theorem c9_witness :
    read_exif_full
      (Except.ok
        ⟨true, some ("corrupted"), none, some ("2023:05:10 14:22:01")⟩) =
      none ∧
    parse_exif_datetime ("2023:05:10 14:22:01") =
      some ⟨2023, 5, 10, 14, 22, 1⟩ := by
  refine ⟨?_, by decide⟩
  exact c9_unparseable_primary_masks_generic
    ⟨true, some ("corrupted"), none, some ("2023:05:10 14:22:01")⟩
    ("corrupted") rfl rfl rfl (by decide)

/-- C7: with the fallback flag set, a file without a metadata date uses
the stat mtime as its date; with the flag false (and the module default
is false) the file is skipped with the no-time outcome, producing no
saved output, and the loop shape processes the remaining files
regardless. -/
theorem c7_no_date_fallback_or_skip (f : FileModel) (rest : List FileModel)
    (fb : Bool) :
    FALLBACK_TO_FILETIME = false ∧
    (f.opensOK = true → read_exif_full f.exifLoad = none →
      ∀ d : PyDateTime, f.mtime = some d →
        process_image_model true f = Outcome.saved f.name (strftime_Ymd d)) ∧
    (f.opensOK = true → read_exif_full f.exifLoad = none →
      process_image_model false f = Outcome.skippedNoTime f.name) ∧
    run_batch fb (f :: rest) = process_image_model fb f :: run_batch fb rest := by
  refine ⟨rfl, fun ho he d hm => ?_, fun ho he => ?_, rfl⟩
  · unfold process_image_model
    rw [if_pos ho]
    have : resolve_date (read_exif_full f.exifLoad) true f.mtime = some d := by
      rw [he, hm]; rfl
    rw [this]
  · unfold process_image_model
    rw [if_pos ho]
    have : resolve_date (read_exif_full f.exifLoad) false f.mtime = none := by
      rw [he]; unfold resolve_date; simp
    rw [this]

/-- C7 witness: a PNG with no usable metadata is skipped under the
default flag and saved with the mtime date when the flag is set. -/
theorem c7_witness :
    process_image_model false
        ⟨("b.png"), true, Except.ok ⟨false, none, none, none⟩,
          some ⟨2024, 1, 2, 0, 0, 0⟩⟩ =
      Outcome.skippedNoTime ("b.png") ∧
    process_image_model true
        ⟨("b.png"), true, Except.ok ⟨false, none, none, none⟩,
          some ⟨2024, 1, 2, 0, 0, 0⟩⟩ =
      Outcome.saved ("b.png") ("2024-01-02") := by
  have h := c7_no_date_fallback_or_skip
    ⟨("b.png"), true, Except.ok ⟨false, none, none, none⟩,
      some ⟨2024, 1, 2, 0, 0, 0⟩⟩ [] false
  refine ⟨h.2.2.1 rfl (by decide), ?_⟩
  have h2 := h.2.1 rfl (by decide) ⟨2024, 1, 2, 0, 0, 0⟩ rfl
  rw [h2]
  decide

/-- C8: every fatal input error aborts the run before any file is
processed, each through its own exit: no input line and an empty stripped
input path exit with status 1, a non-existent path exits with status 1, a
single-file input with an unsupported extension exits with status 1, and
a directory with zero matching child files exits with status 0; in
particular the empty and non-existent cases are non-zero. In the model an
abort is the error result of main_run, produced before the processing
loop ever receives a target. -/
theorem c8_fatal_input_errors (line : String) (kind : InputPath)
    (children : List DirChild) (name : String) (fb : Bool)
    (env : String → FileModel) :
    main_run none kind fb env = Except.error 1 ∧
    (stripWSList line.data = [] →
      main_run (some line) kind fb env = Except.error 1) ∧
    (stripWSList line.data ≠ [] →
      main_run (some line) InputPath.missing fb env = Except.error 1) ∧
    (stripWSList line.data ≠ [] → is_image_file name = false →
      main_run (some line) (InputPath.file name) fb env = Except.error 1) ∧
    (stripWSList line.data ≠ [] →
      children.filter (fun c => c.isFile && is_image_file c.name) = [] →
      main_run (some line) (InputPath.dir children) fb env = Except.error 0) ∧
    (1 : Nat) ≠ 0 := by
  refine ⟨rfl, fun hemp => ?_, fun hne => ?_, fun hne hext => ?_,
    fun hne hmatch => ?_, one_ne_zero⟩
  · simp [main_run, main_validate, hemp]
  · simp [main_run, main_validate, hne]
  · simp [main_run, main_validate, hne, hext]
  · simp [main_run, main_validate, hne, hmatch]

/-- C8 witness: an all-whitespace input line, a missing path, a lone text
file, and a directory holding only a text file each abort with the stated
status. -/
theorem c8_witness :
    main_run (some (" ")) (InputPath.dir []) false
        (fun n => ⟨n, true, Except.error (""), none⟩) = Except.error 1 ∧
    main_run (some ("pics")) InputPath.missing false
        (fun n => ⟨n, true, Except.error (""), none⟩) = Except.error 1 ∧
    main_run (some ("c.txt")) (InputPath.file ("c.txt")) false
        (fun n => ⟨n, true, Except.error (""), none⟩) = Except.error 1 ∧
    main_run (some ("pics")) (InputPath.dir [⟨("c.txt"), true⟩]) false
        (fun n => ⟨n, true, Except.error (""), none⟩) = Except.error 0 := by
  have h1 := c8_fatal_input_errors (" ") (InputPath.dir []) [] ("") false
    (fun n => ⟨n, true, Except.error (""), none⟩)
  have h2 := c8_fatal_input_errors ("pics") InputPath.missing
    [⟨("c.txt"), true⟩] ("c.txt") false
    (fun n => ⟨n, true, Except.error (""), none⟩)
  exact ⟨h1.2.1 (by decide), h2.2.2.1 (by decide),
    h2.2.2.2.1 (by decide) (by decide), h2.2.2.2.2.1 (by decide) (by decide)⟩

/-- Every result of the font-size branch cascade has one of three
shapes: the auto default, a clamped ratio, or a pixel count clamped to at
least one. -/
theorem parse_font_chars_cases (raw : List Char) :
    parse_font_chars raw = ⟨SizeMode.auto, some defaultTargetRatio, none⟩ ∨
    (∃ x : ℚ, parse_font_chars raw =
      ⟨SizeMode.ratio, some (max (1 / 1000) (min 1 x)), none⟩) ∨
    (∃ n : Int, parse_font_chars raw =
      ⟨SizeMode.pixels, none, some (max 1 n)⟩) := by
  unfold parse_font_chars
  split
  · exact Or.inl rfl
  · split
    · split
      · exact Or.inr (Or.inl ⟨_, rfl⟩)
      · exact Or.inl rfl
    · split
      · split
        · exact Or.inr (Or.inr ⟨_, rfl⟩)
        · exact Or.inl rfl
      · split
        · split
          · exact Or.inr (Or.inl ⟨_, rfl⟩)
          · exact Or.inr (Or.inr ⟨_, rfl⟩)
        · exact Or.inl rfl

/-- C3: behaviour of the font-size parser on its stripped, lowered input
raw. Empty or auto input is auto mode at the default ratio; a percent
suffix parses the number and clamps number/100 into [0.001, 1]; a px
suffix parses an integer pixel count; a bare number at most 100 gets the
same clamped ratio reading, and a bare number above 100 becomes that
pixel count (int() truncation, identity on integral input); any failing
numeric parse falls back to auto mode; every ratio value the parser
returns lies in [0.001, 1] and every pixel value is an integer at least
one. -/
theorem c3_parse_font_input_spec (s : String) (raw : List Char) :
    parse_font_input s = parse_font_chars ((stripWSList s.data).map pyLowerChar) ∧
    ((raw = [] ∨ raw = ['a', 'u', 't', 'o']) →
      parse_font_chars raw = ⟨SizeMode.auto, some defaultTargetRatio, none⟩) ∧
    (∀ q : ℚ, raw.getLast? = some '%' → pyFloatChars? raw.dropLast = some q →
      parse_font_chars raw =
        ⟨SizeMode.ratio, some (max (1 / 1000) (min 1 (q / 100))), none⟩) ∧
    (raw.getLast? = some '%' → pyFloatChars? raw.dropLast = none →
      parse_font_chars raw = ⟨SizeMode.auto, some defaultTargetRatio, none⟩) ∧
    (∀ n : Int, raw.dropLast.getLast? = some 'p' → raw.getLast? = some 'x' →
      pyIntChars? raw.dropLast.dropLast = some n →
      parse_font_chars raw = ⟨SizeMode.pixels, none, some (max 1 n)⟩) ∧
    (raw.dropLast.getLast? = some 'p' → raw.getLast? = some 'x' →
      pyIntChars? raw.dropLast.dropLast = none →
      parse_font_chars raw = ⟨SizeMode.auto, some defaultTargetRatio, none⟩) ∧
    (∀ q : ℚ, ¬(raw = [] ∨ raw = ['a', 'u', 't', 'o']) →
      ¬ raw.getLast? = some '%' →
      ¬(raw.dropLast.getLast? = some 'p' ∧ raw.getLast? = some 'x') →
      pyFloatChars? raw = some q → q ≤ 100 →
      parse_font_chars raw =
        ⟨SizeMode.ratio, some (max (1 / 1000) (min 1 (q / 100))), none⟩) ∧
    (∀ q : ℚ, ¬(raw = [] ∨ raw = ['a', 'u', 't', 'o']) →
      ¬ raw.getLast? = some '%' →
      ¬(raw.dropLast.getLast? = some 'p' ∧ raw.getLast? = some 'x') →
      pyFloatChars? raw = some q → 100 < q →
      parse_font_chars raw = ⟨SizeMode.pixels, none, some q.floor⟩ ∧
        1 ≤ q.floor) ∧
    (¬(raw = [] ∨ raw = ['a', 'u', 't', 'o']) →
      ¬ raw.getLast? = some '%' →
      ¬(raw.dropLast.getLast? = some 'p' ∧ raw.getLast? = some 'x') →
      pyFloatChars? raw = none →
      parse_font_chars raw = ⟨SizeMode.auto, some defaultTargetRatio, none⟩) ∧
    (∀ q : ℚ, (parse_font_chars raw).ratio = some q → 1 / 1000 ≤ q ∧ q ≤ 1) ∧
    (∀ n : Int, (parse_font_chars raw).pixels = some n → 1 ≤ n) := by
  refine ⟨rfl, ?_, ?_, ?_, ?_, ?_, ?_, ?_, ?_, ?_, ?_⟩
  · intro h1
    unfold parse_font_chars
    rw [if_pos h1]
  · intro q hp hq
    have hne : ¬(raw = [] ∨ raw = ['a', 'u', 't', 'o']) := by
      rintro (rfl | rfl) <;> exact absurd hp (by decide)
    unfold parse_font_chars
    rw [if_neg hne, if_pos hp, hq]
  · intro hp hq
    have hne : ¬(raw = [] ∨ raw = ['a', 'u', 't', 'o']) := by
      rintro (rfl | rfl) <;> exact absurd hp (by decide)
    unfold parse_font_chars
    rw [if_neg hne, if_pos hp, hq]
  · intro n hp1 hp2 hq
    have hne : ¬(raw = [] ∨ raw = ['a', 'u', 't', 'o']) := by
      rintro (rfl | rfl) <;> exact absurd hp2 (by decide)
    have hnp : ¬ raw.getLast? = some '%' := by
      intro hc
      rw [hp2] at hc
      exact absurd hc (by decide)
    unfold parse_font_chars
    rw [if_neg hne, if_neg hnp, if_pos ⟨hp1, hp2⟩, hq]
  · intro hp1 hp2 hq
    have hne : ¬(raw = [] ∨ raw = ['a', 'u', 't', 'o']) := by
      rintro (rfl | rfl) <;> exact absurd hp2 (by decide)
    have hnp : ¬ raw.getLast? = some '%' := by
      intro hc
      rw [hp2] at hc
      exact absurd hc (by decide)
    unfold parse_font_chars
    rw [if_neg hne, if_neg hnp, if_pos ⟨hp1, hp2⟩, hq]
  · intro q hne hnp hnpx hq hle
    unfold parse_font_chars
    rw [if_neg hne, if_neg hnp, if_neg hnpx, hq]
    simp [hle]
  · intro q hne hnp hnpx hq hlt
    have hfl : (100 : Int) ≤ q.floor := by
      rw [Rat.le_floor]
      exact_mod_cast hlt.le
    constructor
    · unfold parse_font_chars
      rw [if_neg hne, if_neg hnp, if_neg hnpx, hq]
      have hmax : max 1 q.floor = q.floor := max_eq_right (by omega)
      simp [not_le.mpr hlt, hmax]
    · omega
  · intro hne hnp hnpx hq
    unfold parse_font_chars
    rw [if_neg hne, if_neg hnp, if_neg hnpx, hq]
  · intro q hq
    rcases parse_font_chars_cases raw with h | ⟨x, h⟩ | ⟨n, h⟩
    · rw [h] at hq
      simp only [Option.some.injEq] at hq
      subst hq
      norm_num [defaultTargetRatio]
    · rw [h] at hq
      simp only [Option.some.injEq] at hq
      subst hq
      exact ⟨le_max_left _ _, max_le (by norm_num) (min_le_left _ _)⟩
    · rw [h] at hq
      simp at hq
  · intro n hn
    rcases parse_font_chars_cases raw with h | ⟨x, h⟩ | ⟨m, h⟩
    · rw [h] at hn
      simp at hn
    · rw [h] at hn
      simp at hn
    · rw [h] at hn
      simp only [Option.some.injEq] at hn
      subst hn
      exact le_max_left _ _

/-- C3 witness: input 8 is ratio mode 0.08, input 24px is pixel mode 24,
input bogus is auto mode at the default ratio. -/
theorem c3_witness :
    parse_font_input ("8") = ⟨SizeMode.ratio, some (2 / 25), none⟩ ∧
    parse_font_input ("24px") = ⟨SizeMode.pixels, none, some 24⟩ ∧
    parse_font_input ("bogus") =
      ⟨SizeMode.auto, some defaultTargetRatio, none⟩ := by
  have h8 := c3_parse_font_input_spec ("8")
    ((stripWSList (String.data ("8"))).map pyLowerChar)
  have h24 := c3_parse_font_input_spec ("24px")
    ((stripWSList (String.data ("24px"))).map pyLowerChar)
  have hb := c3_parse_font_input_spec ("bogus")
    ((stripWSList (String.data ("bogus"))).map pyLowerChar)
  refine ⟨?_, ?_, ?_⟩
  · have hval : (⟨SizeMode.ratio,
        some (max (1 / 1000) (min 1 ((8 : ℚ) / 100))), none⟩ : FontSpec) =
        ⟨SizeMode.ratio, some (2 / 25), none⟩ := by
      have hmm : max ((1 : ℚ) / 1000) (min 1 (8 / 100)) = 2 / 25 := by
        rw [min_eq_right (by norm_num), max_eq_right (by norm_num)]
        norm_num
      rw [hmm]
    have hfl : pyFloatChars? (List.map pyLowerChar (stripWSList
        (String.data ("8")))) = some 8 := by
      have hl : List.map pyLowerChar (stripWSList (String.data ("8"))) =
          ['8'] := by decide
      rw [hl]
      simp +decide [pyFloatChars?, stripWSList, signSplitL, parseUFrac,
        digitsToNat, dval, allDigits]
    exact (h8.1.trans (h8.2.2.2.2.2.2.1 8 (by decide) (by decide) (by decide)
      hfl (by norm_num))).trans hval
  · exact (h24.1.trans (h24.2.2.2.2.1 24 (by decide) (by decide)
      (by decide))).trans (by decide)
  · exact hb.1.trans (hb.2.2.2.2.2.2.2.2.1 (by decide) (by decide) (by decide)
      (by decide))

/-- dropWhile is the identity when no element satisfies the predicate. -/
theorem dropWhile_all_false (p : Char → Bool) (l : List Char)
    (h : ∀ c ∈ l, p c = false) : l.dropWhile p = l := by
  cases l with
  | nil => rfl
  | cons a t =>
      rw [List.dropWhile_cons]
      simp [h a (List.mem_cons_self a t)]

/-- Stripping is the identity on lists without whitespace. -/
theorem stripWS_all_not_space (l : List Char)
    (h : ∀ c ∈ l, pyIsSpace c = false) : stripWSList l = l := by
  unfold stripWSList
  rw [dropWhile_all_false _ _ h, dropWhile_all_false, List.reverse_reverse]
  intro c hc
  exact h c (List.mem_reverse.mp hc)

/-- A hex digit is not whitespace. -/
theorem hex_char_not_space {c : Char} (h : isHexDigitChar c = true) :
    pyIsSpace c = false := by
  simp only [isHexDigitChar, decide_eq_true_eq] at h
  simp only [pyIsSpace, decide_eq_false_iff_not]
  omega

/-- A hex digit differs from any non-hex character. -/
theorem hex_char_ne {c x : Char} (h : isHexDigitChar c = true)
    (hx : isHexDigitChar x = false) : ¬ c = x := by
  intro hc
  subst hc
  exact Bool.noConfusion (h.symm.trans hx)

/-- The sign splitter passes a list headed by a signless character. -/
theorem signSplitL_no_sign (c : Char) (rest : List Char) (h1 : ¬ c = '+')
    (h2 : ¬ c = '-') : signSplitL (c :: rest) = (1, c :: rest) := by
  simp only [signSplitL]
  rw [if_neg h1, if_neg h2]

/-- int(_, 16) on a two-hex-digit group. -/
theorem pyIntBase16_two_hex (x y : Char) (hx : isHexDigitChar x = true)
    (hy : isHexDigitChar y = true) :
    pyIntBase16Chars? [x, y] =
      some ((16 * hexValNat x + hexValNat y : Nat) : Int) := by
  have hs : stripWSList [x, y] = [x, y] := by
    apply stripWS_all_not_space
    intro c hc
    simp only [List.mem_cons, List.not_mem_nil, or_false] at hc
    rcases hc with rfl | rfl
    · exact hex_char_not_space hx
    · exact hex_char_not_space hy
  have hx2 : hexListToNat [x, y] = 16 * hexValNat x + hexValNat y := by
    simp [hexListToNat]
  simp only [pyIntBase16Chars?, hs,
    signSplitL_no_sign x [y] (hex_char_ne hx (by decide))
      (hex_char_ne hx (by decide))]
  rw [if_pos (by simp [hx, hy]), hx2, one_mul]

/-- parse_hex_color_to_rgba on six hex digits. -/
theorem parse_hex_six (a b c d e f : Char) (ha : isHexDigitChar a = true)
    (hb : isHexDigitChar b = true) (hc : isHexDigitChar c = true)
    (hd : isHexDigitChar d = true) (he : isHexDigitChar e = true)
    (hf : isHexDigitChar f = true) :
    parse_hex_color_chars [a, b, c, d, e, f] =
      some (((16 * hexValNat a + hexValNat b : Nat) : Int),
        ((16 * hexValNat c + hexValNat d : Nat) : Int),
        ((16 * hexValNat e + hexValNat f : Nat) : Int), 255) := by
  have hs : stripWSList [a, b, c, d, e, f] = [a, b, c, d, e, f] := by
    apply stripWS_all_not_space
    intro x hx
    simp only [List.mem_cons, List.not_mem_nil, or_false] at hx
    rcases hx with rfl | rfl | rfl | rfl | rfl | rfl
    · exact hex_char_not_space ha
    · exact hex_char_not_space hb
    · exact hex_char_not_space hc
    · exact hex_char_not_space hd
    · exact hex_char_not_space he
    · exact hex_char_not_space hf
  have hh : stripHash [a, b, c, d, e, f] = [a, b, c, d, e, f] := by
    simp only [stripHash]
    rw [if_neg (hex_char_ne ha (by decide))]
  have hl4 : (if (([a, b, c, d, e, f] : List Char).length = 3) then
      doubleChars [a, b, c, d, e, f] else [a, b, c, d, e, f]) =
      [a, b, c, d, e, f] := by norm_num
  simp only [parse_hex_color_chars, if_neg (by simp : ¬([a, b, c, d, e, f] :
    List Char) = []), hs, hh, hl4]
  rw [if_pos (by simp)]
  rw [show ([a, b, c, d, e, f] : List Char).take 2 = [a, b] from rfl,
    show (([a, b, c, d, e, f] : List Char).drop 2).take 2 = [c, d] from rfl,
    show (([a, b, c, d, e, f] : List Char).drop 4).take 2 = [e, f] from rfl]
  rw [pyIntBase16_two_hex a b ha hb, pyIntBase16_two_hex c d hc hd,
    pyIntBase16_two_hex e f he hf]

/-- parse_hex_color_to_rgba on a leading hash plus six hex digits. -/
theorem parse_hex_six_hash (a b c d e f : Char) (ha : isHexDigitChar a = true)
    (hb : isHexDigitChar b = true) (hc : isHexDigitChar c = true)
    (hd : isHexDigitChar d = true) (he : isHexDigitChar e = true)
    (hf : isHexDigitChar f = true) :
    parse_hex_color_chars ('#' :: [a, b, c, d, e, f]) =
      some (((16 * hexValNat a + hexValNat b : Nat) : Int),
        ((16 * hexValNat c + hexValNat d : Nat) : Int),
        ((16 * hexValNat e + hexValNat f : Nat) : Int), 255) := by
  have hs : stripWSList ('#' :: [a, b, c, d, e, f]) =
      '#' :: [a, b, c, d, e, f] := by
    apply stripWS_all_not_space
    intro x hx
    simp only [List.mem_cons, List.not_mem_nil, or_false] at hx
    rcases hx with rfl | rfl | rfl | rfl | rfl | rfl | rfl
    · decide
    · exact hex_char_not_space ha
    · exact hex_char_not_space hb
    · exact hex_char_not_space hc
    · exact hex_char_not_space hd
    · exact hex_char_not_space he
    · exact hex_char_not_space hf
  have hh : stripHash ('#' :: [a, b, c, d, e, f]) = [a, b, c, d, e, f] := by
    simp [stripHash]
  have hl4 : (if (([a, b, c, d, e, f] : List Char).length = 3) then
      doubleChars [a, b, c, d, e, f] else [a, b, c, d, e, f]) =
      [a, b, c, d, e, f] := by norm_num
  simp only [parse_hex_color_chars,
    if_neg (by simp : ¬(('#' :: [a, b, c, d, e, f]) : List Char) = []),
    hs, hh, hl4]
  rw [if_pos (by simp)]
  rw [show ([a, b, c, d, e, f] : List Char).take 2 = [a, b] from rfl,
    show (([a, b, c, d, e, f] : List Char).drop 2).take 2 = [c, d] from rfl,
    show (([a, b, c, d, e, f] : List Char).drop 4).take 2 = [e, f] from rfl]
  rw [pyIntBase16_two_hex a b ha hb, pyIntBase16_two_hex c d hc hd,
    pyIntBase16_two_hex e f he hf]

/-- parse_hex_color_to_rgba on three hex digits: each digit doubled. -/
theorem parse_hex_three (a b c : Char) (ha : isHexDigitChar a = true)
    (hb : isHexDigitChar b = true) (hc : isHexDigitChar c = true) :
    parse_hex_color_chars [a, b, c] =
      some (((16 * hexValNat a + hexValNat a : Nat) : Int),
        ((16 * hexValNat b + hexValNat b : Nat) : Int),
        ((16 * hexValNat c + hexValNat c : Nat) : Int), 255) := by
  have hs : stripWSList [a, b, c] = [a, b, c] := by
    apply stripWS_all_not_space
    intro x hx
    simp only [List.mem_cons, List.not_mem_nil, or_false] at hx
    rcases hx with rfl | rfl | rfl
    · exact hex_char_not_space ha
    · exact hex_char_not_space hb
    · exact hex_char_not_space hc
  have hh : stripHash [a, b, c] = [a, b, c] := by
    simp only [stripHash]
    rw [if_neg (hex_char_ne ha (by decide))]
  have hl4 : (if (([a, b, c] : List Char).length = 3) then
      doubleChars [a, b, c] else [a, b, c]) = [a, a, b, b, c, c] := by
    simp [doubleChars]
  simp only [parse_hex_color_chars,
    if_neg (by simp : ¬([a, b, c] : List Char) = []), hs, hh, hl4]
  rw [if_pos (by simp)]
  rw [show ([a, a, b, b, c, c] : List Char).take 2 = [a, a] from rfl,
    show (([a, a, b, b, c, c] : List Char).drop 2).take 2 = [b, b] from rfl,
    show (([a, a, b, b, c, c] : List Char).drop 4).take 2 = [c, c] from rfl]
  rw [pyIntBase16_two_hex a a ha ha, pyIntBase16_two_hex b b hb hb,
    pyIntBase16_two_hex c c hc hc]

/-- C4 (amended): a six-hex-digit input, with or without a leading hash,
yields the RGBA tuple of the three expanded groups with alpha 255; a
three-digit input doubles each digit first; an empty input and any input
whose hex conversion raises get the default color, and parse_color_input
always returns a color (the batch is never aborted). Invalidity,
however, is detected per two-character group by the base-16 integer
conversion of Python, which tolerates a leading sign or surrounding
whitespace inside a group, so not every string containing a non-hex
character is rejected (see the counterexample). -/
theorem c4_hex_color (a b c d e f : Char) (s : String) :
    (isHexDigitChar a = true → isHexDigitChar b = true →
      isHexDigitChar c = true → isHexDigitChar d = true →
      isHexDigitChar e = true → isHexDigitChar f = true →
      parse_hex_color_to_rgba (String.mk [a, b, c, d, e, f]) =
        some (((16 * hexValNat a + hexValNat b : Nat) : Int),
          ((16 * hexValNat c + hexValNat d : Nat) : Int),
          ((16 * hexValNat e + hexValNat f : Nat) : Int), 255) ∧
      parse_hex_color_to_rgba (String.mk ['#', a, b, c, d, e, f]) =
        some (((16 * hexValNat a + hexValNat b : Nat) : Int),
          ((16 * hexValNat c + hexValNat d : Nat) : Int),
          ((16 * hexValNat e + hexValNat f : Nat) : Int), 255)) ∧
    (isHexDigitChar a = true → isHexDigitChar b = true →
      isHexDigitChar c = true →
      parse_hex_color_to_rgba (String.mk [a, b, c]) =
        some (((16 * hexValNat a + hexValNat a : Nat) : Int),
          ((16 * hexValNat b + hexValNat b : Nat) : Int),
          ((16 * hexValNat c + hexValNat c : Nat) : Int), 255)) ∧
    (stripWSList s.data = [] →
      parse_color_input s = some ((255 : Int), 255, 255, 255)) ∧
    (parse_hex_color_chars (stripWSList s.data) = none →
      parse_color_input s = some ((255 : Int), 255, 255, 255)) ∧
    (∀ col, stripWSList s.data ≠ [] →
      parse_hex_color_chars (stripWSList s.data) = some col →
      parse_color_input s = some col) := by
  have hdef : parse_hex_color_chars DEFAULT_COLOR_HEX.data =
      some ((255 : Int), 255, 255, 255) := by decide
  refine ⟨fun ha hb hc hd he hf =>
      ⟨parse_hex_six a b c d e f ha hb hc hd he hf,
        parse_hex_six_hash a b c d e f ha hb hc hd he hf⟩,
    fun ha hb hc => parse_hex_three a b c ha hb hc,
    fun hemp => ?_, fun hnone => ?_, fun col hne hsome => ?_⟩
  · unfold parse_color_input
    rw [if_pos hemp]
    exact hdef
  · unfold parse_color_input
    by_cases hte : stripWSList s.data = []
    · rw [if_pos hte]
      exact hdef
    · rw [if_neg hte, hnone]
      exact hdef
  · unfold parse_color_input
    rw [if_neg hne, hsome]

/-- C4 witness: the digits 123456 produce (18, 52, 86) with alpha 255,
and an unparseable input falls back to the default white. -/
theorem c4_witness :
    parse_hex_color_to_rgba (String.mk ['1', '2', '3', '4', '5', '6']) =
      some ((18 : Int), 52, 86, 255) ∧
    parse_color_input ("zz") = some ((255 : Int), 255, 255, 255) := by
  have h := c4_hex_color '1' '2' '3' '4' '5' '6' ("zz")
  refine ⟨?_, ?_⟩
  · exact ((h.1 (by decide) (by decide) (by decide) (by decide) (by decide)
      (by decide)).1).trans (by decide)
  · exact h.2.2.2.1 (by decide)

/-- C4 counterexample: the string +abcde has length 6 and contains a
non-hex character, so the claim demands the default color, but the signed
group +a passes the base-16 conversion and the parser returns
(10, 188, 222, 255), not the default (255, 255, 255, 255). -/
theorem c4_counterexample :
    (['+', 'a', 'b', 'c', 'd', 'e']).all isHexDigitChar = false ∧
    (String.data ("+abcde")).length = 6 ∧
    parse_color_input ("+abcde") = some ((10 : Int), 188, 222, 255) ∧
    some ((10 : Int), 188, 222, 255) ≠
      some ((255 : Int), 255, 255, 255) := by
  refine ⟨by decide, by decide, by decide, by decide⟩
